import Mathlib

/- Verification of the wellbeing ML pipeline of this repository:
   `backend/app/ml/burnout_predictor.py`, `backend/app/ml/lstm_analyzer.py`
   and the prediction endpoints in `backend/app/api/predictions.py`.
   Real-number arithmetic of the source is modelled over `ℚ`. -/

namespace Wellbeing

/-- One daily check-in (`WellbeingRecord`), with the fields consumed by
`engineer_features`.  Sequences of records are taken in ascending
`created_at` order, on which the source's `sort_values` step is the
identity, so the timestamp column is not carried. -/
structure WRecord where
  mood_score : ℚ
  energy_score : ℚ
  stress_score : ℚ
  sleep_quality : ℚ
  work_hours : ℚ
  deriving DecidableEq, Repr

/-- pandas `Series.mean`: sum over length. -/
def mean (l : List ℚ) : ℚ := l.sum / l.length

/-- pandas `DataFrame.tail n`: the last `n` rows. -/
def tailN {α : Type} (n : ℕ) (l : List α) : List α := l.drop (l.length - n)

/-- pandas `Series.std` (default `ddof = 1`), squared: `none` models the NaN
pandas returns on a window with fewer than two elements, and `some v` a
defined standard deviation whose value is the square root of `v`, the
unbiased sample variance.  Definedness and zero-ness of the standard
deviation coincide with those of `v`, which is all the claims use; carrying
the variance keeps the definition inside `ℚ`. -/
def sampleStdSq (l : List ℚ) : Option ℚ :=
  if l.length ≤ 1 then none
  else some ((l.map (fun x => (x - mean l) ^ 2)).sum / ((l.length : ℚ) - 1))

/-- The feature vector built by `BurnoutPredictor.engineer_features`,
field for field. -/
structure Features where
  avg_mood_7d : ℚ
  avg_energy_7d : ℚ
  avg_stress_7d : ℚ
  avg_sleep_7d : ℚ
  avg_work_hours_7d : ℚ
  std_mood_7d : Option ℚ
  std_energy_7d : Option ℚ
  std_stress_7d : Option ℚ
  mood_trend : ℚ
  energy_trend : ℚ
  stress_trend : ℚ
  avg_mood_30d : ℚ
  avg_stress_30d : ℚ
  avg_work_hours_30d : ℚ
  risk_composite : ℚ
  overtime_risk : ℚ
  deriving DecidableEq, Repr

/-- `BurnoutPredictor.engineer_features` on a time-ordered record list:
7-day rolling means and (squared) standard deviations, 14-day trend deltas,
30-day means with the 7-day fallback, the composite risk score and the
overtime-risk scalar. -/
def engineerFeatures (records : List WRecord) : Features :=
  let recent := tailN 7 records
  let avgMood7 := mean (recent.map WRecord.mood_score)
  let avgEnergy7 := mean (recent.map WRecord.energy_score)
  let avgStress7 := mean (recent.map WRecord.stress_score)
  let avgSleep7 := mean (recent.map WRecord.sleep_quality)
  let avgWork7 := mean (recent.map WRecord.work_hours)
  let previous := (tailN 14 records).take 7
  { avg_mood_7d := avgMood7
    avg_energy_7d := avgEnergy7
    avg_stress_7d := avgStress7
    avg_sleep_7d := avgSleep7
    avg_work_hours_7d := avgWork7
    std_mood_7d := sampleStdSq (recent.map WRecord.mood_score)
    std_energy_7d := sampleStdSq (recent.map WRecord.energy_score)
    std_stress_7d := sampleStdSq (recent.map WRecord.stress_score)
    mood_trend :=
      if 14 ≤ records.length then avgMood7 - mean (previous.map WRecord.mood_score) else 0
    energy_trend :=
      if 14 ≤ records.length then avgEnergy7 - mean (previous.map WRecord.energy_score) else 0
    stress_trend :=
      if 14 ≤ records.length then avgStress7 - mean (previous.map WRecord.stress_score) else 0
    avg_mood_30d :=
      if 30 ≤ records.length then mean ((tailN 30 records).map WRecord.mood_score) else avgMood7
    avg_stress_30d :=
      if 30 ≤ records.length then mean ((tailN 30 records).map WRecord.stress_score) else avgStress7
    avg_work_hours_30d :=
      if 30 ≤ records.length then mean ((tailN 30 records).map WRecord.work_hours) else avgWork7
    risk_composite :=
      (10 - avgMood7) * (3/10) + (10 - avgEnergy7) * (2/10)
        + avgStress7 * (3/10) + (10 - avgSleep7) * (2/10)
    overtime_risk := max 0 (avgWork7 - 8) / 4 }

/-- The spec's "7-day mean" of one metric column: the mean of the trailing
7-element window. -/
def mean7 (l : List ℚ) : ℚ := mean (tailN 7 l)

/-- One row of the four tracked metric columns of `LSTMWellbeingAnalyzer`
(`feature_columns`: mood, energy, stress, sleep quality, in that order). -/
abbrev Row := List ℚ

/-- Per-column parameters of a fitted `MinMaxScaler`: the column minimum of
the fitted data and its range (`data_max − data_min`) after sklearn's
zero handling. -/
structure ColScale where
  dmin : ℚ
  drange : ℚ
  deriving DecidableEq, Repr

/-- `MinMaxScaler.transform` on one value (default feature range `[0, 1]`). -/
def ColScale.transform (c : ColScale) (x : ℚ) : ℚ := (x - c.dmin) / c.drange

/-- `MinMaxScaler.inverse_transform` on one value. -/
def ColScale.inverse (c : ColScale) (x : ℚ) : ℚ := x * c.drange + c.dmin

/-- Minimum of a metric column (columns are nonempty in every use). -/
def colMin (col : List ℚ) : ℚ := col.foldl min (col.headD 0)

/-- Maximum of a metric column. -/
def colMax (col : List ℚ) : ℚ := col.foldl max (col.headD 0)

/-- `MinMaxScaler.fit` over the given rows, one `ColScale` per column; a zero
range is replaced by 1 (sklearn `_handle_zeros_in_scale`). -/
def fitMinMax (data : List Row) : List ColScale :=
  data.transpose.map fun col =>
    ⟨colMin col, if colMax col - colMin col = 0 then 1 else colMax col - colMin col⟩

/-- `MinMaxScaler.transform` over rows, column by column. -/
def scaleRows (cs : List ColScale) (rows : List Row) : List Row :=
  rows.map fun r => List.zipWith ColScale.transform cs r

/-- A fitted single-input `LinearRegression`. -/
structure LinModel where
  coef : ℚ
  intercept : ℚ
  deriving DecidableEq, Repr

/-- Prediction of a fitted single-input `LinearRegression`. -/
def LinModel.predictOne (m : LinModel) (x : ℚ) : ℚ := m.coef * x + m.intercept

/-- The Python exceptions relevant here.  `insufficientDataError` is the
structured error the spec postulates; it is included so that its absence
from every code path can be stated. -/
inductive PyExn where
  | valueError
  | insufficientDataError
  deriving DecidableEq, Repr

/-- `LinearRegression.fit` on single-feature samples `xs` with targets `ys`:
sklearn first checks that the sample counts agree (`check_X_y`), raising
`ValueError` otherwise; on a singular design (constant `xs`) the minimal-norm
least-squares solution has zero coefficient and mean intercept, otherwise the
usual closed form applies. -/
def fitLinReg (xs ys : List ℚ) : Except PyExn LinModel :=
  if xs.length ≠ ys.length then .error .valueError
  else
    let xbar := mean xs
    let ybar := mean ys
    let sxx := (xs.map (fun x => (x - xbar) ^ 2)).sum
    let sxy := (List.zipWith (fun x y => (x - xbar) * (y - ybar)) xs ys).sum
    if sxx = 0 then .ok ⟨0, ybar⟩
    else .ok ⟨sxy / sxx, ybar - sxy / sxx * xbar⟩

/-- The per-column training design built by `LSTMWellbeingAnalyzer.train`:
the `len − w` windows of length `w` are collected and then
`np.array(X).reshape(-1, 1)` flattens them into single-feature samples,
while the target vector keeps one entry per window. -/
def buildXY (w : ℕ) (col : List ℚ) : List ℚ × List ℚ :=
  (((List.range (col.length - w)).map fun i => (col.drop i).take w).flatten,
   (List.range (col.length - w)).map fun i => col.getD (i + w) 0)

/-- The state of an `LSTMWellbeingAnalyzer`: window length, trained flag,
fitted scaler columns and the per-metric fitted regressors (`none` models a
metric absent from `self.models`). -/
structure LSTMState where
  sequence_length : ℕ
  is_trained : Bool
  scaler : List ColScale
  models : List (Option LinModel)
  deriving DecidableEq, Repr

/-- Outcome of `LSTMWellbeingAnalyzer.train`. -/
inductive LSTMTrainOutcome where
  /-- Fewer than `w + 1` rows: the dummy history is returned and the
  component stays untrained. -/
  | noOp
  /-- An exception escaped `train` (the source has no handler). -/
  | raised (e : PyExn)
  /-- Training completed and `is_trained` was set. -/
  | trained (s : LSTMState)
  deriving DecidableEq, Repr

/-- `LSTMWellbeingAnalyzer.train` with window length `w` on `data` (rows of
the four metric columns): fewer than `w + 1` rows is a no-op; otherwise the
columns are min-max normalized and one regressor is fitted per column, the
first exception aborting training before `is_trained` is set.  The source's
`len(X) > 0` guard is always true on this path (`len − w ≥ 1` windows), so it
is not modelled. -/
def lstmTrain (w : ℕ) (data : List Row) : LSTMTrainOutcome :=
  if data.length < w + 1 then .noOp
  else
    let cs := fitMinMax data
    let scaled := scaleRows cs data
    let cols := (List.range 4).map fun j => scaled.map fun r => r.getD j 0
    match cols.mapM (fun col => fitLinReg (buildXY w col).1 (buildXY w col).2) with
    | .error e => .raised e
    | .ok ms => .trained ⟨w, true, cs, ms.map some⟩

/-- pandas `Series.clip lo hi`. -/
def clipQ (lo hi x : ℚ) : ℚ := max lo (min x hi)

/-- numpy rounding (`Series.round`): nearest integer, ties to even. -/
def roundHalfEven (x : ℚ) : ℤ :=
  if x - ⌊x⌋ < 1/2 then ⌊x⌋
  else if 1/2 < x - ⌊x⌋ then ⌊x⌋ + 1
  else if ⌊x⌋ % 2 = 0 then ⌊x⌋ else ⌊x⌋ + 1

/-- One iteration of the forecast loop: each metric is predicted from the
last value of its column in the rolling window (`scaled[-1, idx]`); metrics
without a fitted model keep their last value. -/
def stepPred (models : List (Option LinModel)) (lastRow : Row) : Row :=
  List.zipWith (fun m x => match m with | some md => md.predictOne x | none => x)
    models lastRow

/-- The forecast loop of `predict_next_days`: `n` iterations, each appending
its prediction to the output and sliding the window
(`np.vstack([scaled[1:], pred])`). -/
def predSteps (models : List (Option LinModel)) (window : List Row) : ℕ → List Row
  | 0 => []
  | n + 1 =>
    let p := stepPred models (window.getLastD [])
    p :: predSteps models (window.drop 1 ++ [p]) n

/-- Denormalize one predicted row (`inverse_transform`), then clip each
metric to `[1, 10]` and round it (`clip(1, 10).round()`). -/
def finalizeRow (cs : List ColScale) (p : Row) : Row :=
  List.zipWith (fun c x => ((roundHalfEven (clipQ 1 10 (c.inverse x)) : ℤ) : ℚ)) cs p

/-- `LSTMWellbeingAnalyzer.predict_next_days`: untrained returns the empty
DataFrame (modelled `[]`); otherwise the last `sequence_length` rows are
normalized, the loop runs `daysAhead` times and the predictions are
denormalized, clipped and rounded. -/
def predictNextDays (st : LSTMState) (recent : List Row) (daysAhead : ℕ) : List Row :=
  if st.is_trained = false then []
  else
    let scaled := scaleRows st.scaler (tailN st.sequence_length recent)
    (predSteps st.models scaled daysAhead).map (finalizeRow st.scaler)

/-- `LSTMWellbeingAnalyzer.detect_anomalies`: a guarded stub that always
returns the empty list. -/
def detectAnomalies (st : LSTMState) (data : List Row) : List Row :=
  if st.is_trained = false ∨ data.length < st.sequence_length + 1 then [] else []

/-- The errors of the `/predictions/timeseries` endpoint. -/
inductive ApiError where
  /-- HTTP 400, "Dados insuficientes". -/
  | insufficientData
  /-- HTTP 503, the model-not-ready rejection. -/
  | modelNotReady
  deriving DecidableEq, Repr

/-- `predict_timeseries` (`GET /predictions/timeseries`): the handler first
rejects fewer than 14 records (HTTP 400), then an untrained analyzer
(HTTP 503), and only then calls the forecaster and the anomaly stub. -/
def predictTimeseries (st : LSTMState) (records : List Row) (daysAhead : ℕ) :
    Except ApiError (List Row × List Row) :=
  if records.length < 14 then .error .insufficientData
  else if st.is_trained = false then .error .modelNotReady
  else .ok (predictNextDays st records daysAhead, detectAnomalies st records)

/-- Taking a metric column commutes with the trailing window. -/
theorem mean7_map (f : WRecord → ℚ) (rs : List WRecord) :
    mean7 (rs.map f) = mean ((tailN 7 rs).map f) := by
  simp [mean7, tailN, List.map_drop]

/-- The end-to-end scenario record of the spec: mood 3, energy 3, stress 9,
sleep 4, work hours 10. -/
def scenarioRecord : WRecord := ⟨3, 3, 9, 4, 10⟩

/-- C1: for every record sequence with at least 7 entries, the composite risk
score of `engineer_features` is `0.3·(10−mood₇) + 0.2·(10−energy₇) +
0.3·stress₇ + 0.2·(10−sleep₇)` over the 7-day means and the overtime risk is
`max(0, work₇ − 8)/4`; seven identical records with mood 3, energy 3,
stress 9, sleep 4 and work hours 10 give exactly 7.4 and 0.5. -/
theorem c1_risk_composite_overtime :
    (∀ rs : List WRecord, 7 ≤ rs.length →
      (engineerFeatures rs).risk_composite =
          3/10 * (10 - mean7 (rs.map WRecord.mood_score))
          + 2/10 * (10 - mean7 (rs.map WRecord.energy_score))
          + 3/10 * mean7 (rs.map WRecord.stress_score)
          + 2/10 * (10 - mean7 (rs.map WRecord.sleep_quality)) ∧
      (engineerFeatures rs).overtime_risk =
          max 0 (mean7 (rs.map WRecord.work_hours) - 8) / 4) ∧
    (engineerFeatures (List.replicate 7 scenarioRecord)).risk_composite = 37/5 ∧
    (engineerFeatures (List.replicate 7 scenarioRecord)).overtime_risk = 1/2 := by
  refine ⟨fun rs _ => ⟨?_, ?_⟩, ?_, ?_⟩
  · simp only [engineerFeatures, mean7_map]
    ring
  · simp only [engineerFeatures, mean7_map]
  · norm_num [engineerFeatures, scenarioRecord, tailN, mean, List.sum_replicate]
  · norm_num [engineerFeatures, scenarioRecord, tailN, mean, List.sum_replicate, max_def]

/-- C2 counterexample: on a sequence of exactly one record the 7-day
standard-deviation feature is pandas' NaN (modelled `none`), not 0: the claim
"exactly 0" fails at this concrete input. -/
theorem c2_single_record_std_cex :
    (engineerFeatures [⟨5, 5, 5, 5, 8⟩]).std_mood_7d = none ∧
    (engineerFeatures [⟨5, 5, 5, 5, 8⟩]).std_mood_7d ≠ some 0 := by
  constructor <;> simp [engineerFeatures, sampleStdSq, tailN]

/-- C2 (amended): for a sequence of exactly one record, all three 7-day
standard-deviation features are undefined (NaN: pandas `std` with `ddof = 1`
of a single element), modelled as `none`, rather than 0. -/
theorem c2_single_record_std_nan (r : WRecord) :
    (engineerFeatures [r]).std_mood_7d = none ∧
    (engineerFeatures [r]).std_energy_7d = none ∧
    (engineerFeatures [r]).std_stress_7d = none := by
  refine ⟨?_, ?_, ?_⟩ <;> simp [engineerFeatures, sampleStdSq, tailN]

/-- The serving state of a `BurnoutPredictor`: the fitted standardization and
the two fitted classifiers are numeric functions whose values come from the
sklearn fits; `predict` only combines their outputs, which is what the claims
concern. -/
structure BPState where
  is_trained : Bool
  scalerTf : Features → List ℚ
  rfProba : List ℚ → ℚ
  gbProba : List ℚ → ℚ

/-- The risk-tier cascade of `BurnoutPredictor.predict`. -/
def riskLevel (p : ℚ) : String :=
  if p < 3/10 then "low" else if p < 6/10 then "medium" else "high"

/-- Advisory string for elevated stress. -/
def recStress : String :=
  "Seu nível de estresse está elevado. Considere técnicas de relaxamento."

/-- Advisory string for poor sleep. -/
def recSleep : String :=
  "Qualidade do sono abaixo do ideal. Priorize 7-8 horas de sono."

/-- Advisory string for excessive work hours. -/
def recHours : String :=
  "Horas de trabalho acima do recomendado. Tente estabelecer limites."

/-- Advisory string for low mood. -/
def recMood : String :=
  "Humor baixo detectado. Considere conversar com um profissional."

/-- Advisory string for low energy. -/
def recEnergy : String :=
  "Energia baixa. Avalie sua alimentação e atividade física."

/-- High-urgency string for probability above 0.7. -/
def recUrgent : String :=
  "⚠️ Risco alto de burnout. Recomendamos buscar apoio profissional."

/-- Positive-reinforcement fallback string. -/
def recPositive : String :=
  "Continue mantendo seus hábitos saudáveis! 🌟"

/-- Default message of the untrained predictor. -/
def recDefault : String := "Modelo em treinamento"

/-- `BurnoutPredictor._generate_recommendations`: the source's sequential
append cascade, one conditional append per threshold, then the fallback when
nothing was appended. -/
def genRecommendations (f : Features) (p : ℚ) : List String :=
  let r0 : List String := []
  let r1 := if 7 < f.avg_stress_7d then r0 ++ [recStress] else r0
  let r2 := if f.avg_sleep_7d < 6 then r1 ++ [recSleep] else r1
  let r3 := if 9 < f.avg_work_hours_7d then r2 ++ [recHours] else r2
  let r4 := if f.avg_mood_7d < 5 then r3 ++ [recMood] else r3
  let r5 := if f.avg_energy_7d < 5 then r4 ++ [recEnergy] else r4
  let r6 := if 7/10 < p then r5 ++ [recUrgent] else r5
  if r6 = [] then [recPositive] else r6

/-- `BurnoutPredictor.predict`: untrained returns the neutral default;
otherwise features are engineered and scaled, the two positive-class
probabilities are averaged, tiered, and turned into recommendations. -/
def predictBurnout (st : BPState) (records : List WRecord) :
    ℚ × String × List String :=
  if st.is_trained = false then (1/2, "medium", [recDefault])
  else
    let x := engineerFeatures records
    let xs := st.scalerTf x
    let p := (st.rfProba xs + st.gbProba xs) / 2
    (p, riskLevel p, genRecommendations x p)

/-- The recommendation rules as the spec words them: an ordered table of
(predicate, message) pairs evaluated in fixed sequence. -/
def ruleTable : List ((Features → ℚ → Bool) × String) :=
  [(fun f _ => decide (7 < f.avg_stress_7d), recStress),
   (fun f _ => decide (f.avg_sleep_7d < 6), recSleep),
   (fun f _ => decide (9 < f.avg_work_hours_7d), recHours),
   (fun f _ => decide (f.avg_mood_7d < 5), recMood),
   (fun f _ => decide (f.avg_energy_7d < 5), recEnergy),
   (fun _ p => decide (7/10 < p), recUrgent)]

/-- The messages of the triggered rules, in table order. -/
def triggered (f : Features) (p : ℚ) : List String :=
  (ruleTable.filter fun r => r.1 f p).map Prod.snd

/-- The spec-side recommendation generator: the triggered messages in table
order, or the single positive-reinforcement string when none triggered. -/
def recsSpec (f : Features) (p : ℚ) : List String :=
  if triggered f p = [] then [recPositive] else triggered f p

/-- Number of distinct classes present in a binary label vector. -/
def nClasses (y : List Bool) : ℕ :=
  (if 0 < y.count true then 1 else 0) + (if 0 < y.count false then 1 else 0)

/-- Size of the least populated present class (labels nonempty in use). -/
def minClassCount (y : List Bool) : ℕ :=
  if y.count true = 0 then y.count false
  else if y.count false = 0 then y.count true
  else min (y.count true) (y.count false)

/-- The held-out size of `train_test_split` with `test_size = 0.2`:
`ceil(n / 5)`. -/
def nTestSplit (n : ℕ) : ℕ := (n + 4) / 5

/-- Outcome of `BurnoutPredictor.train`. -/
inductive BPTrainOutcome where
  /-- An exception escaped `train` (the source has no handler and defines no
  structured error of its own). -/
  | raised (e : PyExn)
  /-- Both models were fitted, metrics computed, `is_trained` set. -/
  | trained
  deriving DecidableEq, Repr

/-- The control flow of `BurnoutPredictor.train`, modelled from the source
together with sklearn's documented failure conditions: the stratified
`train_test_split` raises `ValueError` on mismatched lengths, an empty
dataset, a present class with fewer than 2 members, or a train or test slice
smaller than the number of classes; with a single class present the random
forest fits but `GradientBoostingClassifier.fit` raises `ValueError` (its
target validation rejects single-class `y`), so execution never reaches the
probability-column extraction; otherwise both fits succeed and the
stratified held-out slice contains every class, so `roc_auc_score` succeeds.
The fitted values and AUC numbers are abstracted away — the claims concern
only completion versus exception.  No path produces
`insufficientDataError`. -/
def bpTrain (x : List (List ℚ)) (y : List Bool) : BPTrainOutcome :=
  if x.length ≠ y.length then .raised .valueError
  else if y.length = 0 then .raised .valueError
  else if minClassCount y < 2 then .raised .valueError
  else if nTestSplit y.length < nClasses y then .raised .valueError
  else if y.length - nTestSplit y.length < nClasses y then .raised .valueError
  else if nClasses y < 2 then .raised .valueError
  else .trained

/-- C3: evaluating `LSTMWellbeingAnalyzer.train` on its own happy path shows
the training-pairs contract cannot hold: with the default window 14 and 15
rows, the per-column fit is handed 14 flattened single-feature samples
against a single target and raises `ValueError`, so no regressor is fitted
and the component is never marked trained; with only 14 rows training is the
documented no-op. -/
theorem c3_lstm_train_raises :
    lstmTrain 14 (List.replicate 15 [5, 5, 5, 5]) = .raised .valueError ∧
    lstmTrain 14 (List.replicate 14 [5, 5, 5, 5]) = .noOp := by
  constructor <;> rfl

/-- C4: with an untrained analyzer the timeseries endpoint never returns an
output, and once the 14-record data gate is passed it fails with the
model-not-ready rejection (HTTP 503). -/
theorem c4_untrained_rejected (st : LSTMState) (records : List Row)
    (daysAhead : ℕ) (hu : st.is_trained = false) :
    (∀ out, predictTimeseries st records daysAhead ≠ .ok out) ∧
    (14 ≤ records.length →
      predictTimeseries st records daysAhead = .error .modelNotReady) := by
  unfold predictTimeseries
  rw [hu]
  constructor
  · intro out
    split_ifs <;> simp_all
  · intro hlen
    rw [if_neg (by omega)]
    simp

/-- C4 witness: a concrete untrained analyzer with 14 records is rejected
with the model-not-ready error. -/
theorem c4_untrained_rejected_witness :
    (LSTMState.mk 14 false [] []).is_trained = false ∧
    14 ≤ (List.replicate 14 ([] : Row)).length ∧
    predictTimeseries ⟨14, false, [], []⟩ (List.replicate 14 []) 7 =
      .error .modelNotReady :=
  ⟨rfl, by simp,
    (c4_untrained_rejected ⟨14, false, [], []⟩ (List.replicate 14 []) 7 rfl).2
      (by simp)⟩

/-- In a boolean label vector the two class counts add up to the length. -/
theorem count_true_add_count_false (y : List Bool) :
    y.count true + y.count false = y.length := by
  induction y with
  | nil => rfl
  | cons b t ih => cases b <;> simp [List.count_cons] <;> omega

/-- C5 counterexample: four examples with the positive class entirely absent
crash `train` with an uncaught `ValueError` (raised by the gradient-boosting
fit, which rejects single-class targets), not the structured
`InsufficientDataError` the claim names; and a balanced eight-example dataset
(fewer than ~10) trains successfully instead of failing fast. -/
theorem c5_structured_error_cex :
    bpTrain (List.replicate 4 [1]) (List.replicate 4 false) =
      .raised .valueError ∧
    bpTrain (List.replicate 4 [1]) (List.replicate 4 false) ≠
      .raised .insufficientDataError ∧
    bpTrain (List.replicate 8 [1])
      [true, true, true, true, false, false, false, false] = .trained := by
  refine ⟨rfl, by decide, rfl⟩

/-- C5 (amended): `BurnoutPredictor.train` performs no size or class-presence
validation of its own and reports no structured error: with one class
entirely absent (and at least two examples) it crashes with an uncaught
`ValueError` when fitting the gradient-boosting model, whose target
validation rejects single-class labels; a balanced four-example
dataset crashes with an uncaught `ValueError` in the stratified split; and no
input at all makes it report `InsufficientDataError`. -/
theorem c5_train_unstructured :
    (∀ (x : List (List ℚ)) (y : List Bool), x.length = y.length →
      2 ≤ y.length → nClasses y = 1 → bpTrain x y = .raised .valueError) ∧
    bpTrain (List.replicate 4 [1]) [true, true, false, false] =
      .raised .valueError ∧
    (∀ (x : List (List ℚ)) (y : List Bool),
      bpTrain x y ≠ .raised .insufficientDataError) := by
  refine ⟨fun x y hx hy hk => ?_, rfl, fun x y => ?_⟩
  · have hsum := count_true_add_count_false y
    have hmin : minClassCount y = y.length := by
      rcases Nat.eq_zero_or_pos (y.count true) with h0 | h0
      · have hcf : y.count false = y.length := by omega
        simp [minClassCount, h0, hcf]
      · have hcf : y.count false = 0 := by
          by_contra hne
          have : nClasses y = 2 := by
            unfold nClasses
            rw [if_pos h0, if_pos (Nat.pos_of_ne_zero hne)]
          omega
        have hct : y.count true = y.length := by omega
        unfold minClassCount
        rw [if_neg (by omega), if_pos hcf, hct]
    simp only [bpTrain, hx, hmin, hk, nTestSplit]
    split_ifs <;> first | rfl | omega
  · unfold bpTrain
    split_ifs <;> decide

/-- C6: on a trained predictor the returned burnout probability is the
arithmetic mean of the random-forest and gradient-boosting positive-class
probabilities, and it lies in `[0, 1]` whenever both constituents do. -/
theorem c6_probability_mean (st : BPState) (rs : List WRecord)
    (ht : st.is_trained = true) :
    (predictBurnout st rs).1 =
      (st.rfProba (st.scalerTf (engineerFeatures rs))
        + st.gbProba (st.scalerTf (engineerFeatures rs))) / 2 ∧
    (0 ≤ st.rfProba (st.scalerTf (engineerFeatures rs)) →
      st.rfProba (st.scalerTf (engineerFeatures rs)) ≤ 1 →
      0 ≤ st.gbProba (st.scalerTf (engineerFeatures rs)) →
      st.gbProba (st.scalerTf (engineerFeatures rs)) ≤ 1 →
      0 ≤ (predictBurnout st rs).1 ∧ (predictBurnout st rs).1 ≤ 1) := by
  have h1 : (predictBurnout st rs).1 =
      (st.rfProba (st.scalerTf (engineerFeatures rs))
        + st.gbProba (st.scalerTf (engineerFeatures rs))) / 2 := by
    simp [predictBurnout, ht]
  refine ⟨h1, fun a b c d => ?_⟩
  rw [h1]
  constructor <;> linarith

/-- A concrete trained predictor state for the C6 witness: constant model
probabilities 1/4 and 3/4. -/
def bpStateW : BPState := ⟨true, fun _ => [], fun _ => 1/4, fun _ => 3/4⟩

/-- C6 witness: at the concrete trained state the returned probability is the
mean of the two constituent probabilities and lies in `[0, 1]`. -/
theorem c6_probability_mean_witness :
    bpStateW.is_trained = true ∧
    (predictBurnout bpStateW []).1 =
      (bpStateW.rfProba (bpStateW.scalerTf (engineerFeatures []))
        + bpStateW.gbProba (bpStateW.scalerTf (engineerFeatures []))) / 2 ∧
    (0 ≤ (predictBurnout bpStateW []).1 ∧ (predictBurnout bpStateW []).1 ≤ 1) :=
  ⟨rfl, (c6_probability_mean bpStateW [] rfl).1,
    (c6_probability_mean bpStateW [] rfl).2 (by norm_num [bpStateW])
      (by norm_num [bpStateW]) (by norm_num [bpStateW]) (by norm_num [bpStateW])⟩

/-- C7: the risk tier is "low" exactly below probability 0.3, "medium"
exactly on `[0.3, 0.6)` and "high" exactly from 0.6 on, with the four
boundary probes of the spec. -/
theorem c7_risk_tiers (p : ℚ) :
    (riskLevel p = "low" ↔ p < 3/10) ∧
    (riskLevel p = "medium" ↔ 3/10 ≤ p ∧ p < 6/10) ∧
    (riskLevel p = "high" ↔ 6/10 ≤ p) ∧
    riskLevel (2999/10000) = "low" ∧ riskLevel (3/10) = "medium" ∧
    riskLevel (5999/10000) = "medium" ∧ riskLevel (6/10) = "high" := by
  refine ⟨?_, ?_, ?_, by norm_num [riskLevel], by norm_num [riskLevel],
    by norm_num [riskLevel], by norm_num [riskLevel]⟩
  · unfold riskLevel
    split_ifs with a b
    · exact iff_of_true rfl a
    · exact iff_of_false (by decide) a
    · exact iff_of_false (by decide) a
  · unfold riskLevel
    split_ifs with a b
    · exact iff_of_false (by decide) fun h => absurd h.1 (not_le.mpr a)
    · exact iff_of_true rfl ⟨le_of_not_lt a, b⟩
    · exact iff_of_false (by decide) fun h => b h.2
  · unfold riskLevel
    split_ifs with a b
    · exact iff_of_false (by decide) fun h => by linarith
    · exact iff_of_false (by decide) (not_le.mpr b)
    · exact iff_of_true rfl (le_of_not_lt b)

set_option maxHeartbeats 1000000 in
/-- C8: the recommendation cascade emits exactly the triggered messages of
the spec's ordered rule table (stress, sleep, hours, mood, energy, then the
probability trigger), and the positive-reinforcement string appears exactly
when no rule triggered — so the output is a deterministic function of the
features and probability with the fixed order. -/
theorem c8_recommendation_order (f : Features) (p : ℚ) :
    genRecommendations f p = recsSpec f p ∧
    (recPositive ∈ genRecommendations f p ↔ triggered f p = []) := by
  have hEq : genRecommendations f p = recsSpec f p := by
    by_cases h1 : 7 < f.avg_stress_7d <;>
      by_cases h2 : f.avg_sleep_7d < 6 <;>
      by_cases h3 : 9 < f.avg_work_hours_7d <;>
      by_cases h4 : f.avg_mood_7d < 5 <;>
      by_cases h5 : f.avg_energy_7d < 5 <;>
      by_cases h6 : 7/10 < p <;>
      simp [genRecommendations, recsSpec, triggered, ruleTable,
        h1, h2, h3, h4, h5, h6]
  refine ⟨hEq, ?_⟩
  have hsub : ∀ s ∈ triggered f p,
      s ∈ [recStress, recSleep, recHours, recMood, recEnergy, recUrgent] := by
    intro s hs
    unfold triggered ruleTable at hs
    rcases List.mem_map.1 hs with ⟨r, hr, rfl⟩
    have hmem := (List.mem_filter.1 hr).1
    fin_cases hmem <;> simp
  have hnotin : recPositive ∉
      [recStress, recSleep, recHours, recMood, recEnergy, recUrgent] := by decide
  have hnp : recPositive ∉ triggered f p := fun hm => hnotin (hsub _ hm)
  rw [hEq]
  unfold recsSpec
  by_cases h : triggered f p = [] <;> simp [h, hnp]

/-- The forecast loop produces exactly one row per iteration. -/
theorem predSteps_length (ms : List (Option LinModel)) (w : List Row) (n : ℕ) :
    (predSteps ms w n).length = n := by
  induction n generalizing w with
  | zero => rfl
  | succ k ih => simp [predSteps, ih]

/-- Half-even rounding stays inside an integer-bounded interval. -/
theorem roundHalfEven_bounds (x : ℚ) (h1 : 1 ≤ x) (h2 : x ≤ 10) :
    1 ≤ roundHalfEven x ∧ roundHalfEven x ≤ 10 := by
  have hf1 : (1 : ℤ) ≤ ⌊x⌋ := Int.le_floor.mpr (by exact_mod_cast h1)
  have hf2 : ⌊x⌋ ≤ 10 := by
    have h := Int.floor_le_floor h2
    norm_num at h
    exact h
  have hfl : (⌊x⌋ : ℚ) ≤ x := Int.floor_le x
  unfold roundHalfEven
  split_ifs with a b c
  · exact ⟨hf1, hf2⟩
  · refine ⟨by omega, ?_⟩
    have h10 : (⌊x⌋ : ℚ) < 10 := by linarith
    have : ⌊x⌋ < 10 := by exact_mod_cast h10
    omega
  · exact ⟨hf1, hf2⟩
  · refine ⟨by omega, ?_⟩
    have h10 : (⌊x⌋ : ℚ) < 10 := by
      have ha : 1/2 ≤ x - ⌊x⌋ := le_of_not_lt a
      linarith
    have : ⌊x⌋ < 10 := by exact_mod_cast h10
    omega

/-- Every entry of a finalized forecast row is an integer between 1 and 10. -/
theorem finalizeRow_mem (cs : List ColScale) (p : Row) (v : ℚ)
    (hv : v ∈ finalizeRow cs p) :
    (∃ n : ℤ, v = (n : ℚ)) ∧ 1 ≤ v ∧ v ≤ 10 := by
  induction cs generalizing p with
  | nil => simp [finalizeRow] at hv
  | cons c t ih =>
    cases p with
    | nil => simp [finalizeRow] at hv
    | cons x q =>
      rw [finalizeRow, List.zipWith_cons_cons] at hv
      rcases List.mem_cons.1 hv with h | h
      · subst h
        have hcl : 1 ≤ clipQ 1 10 (c.inverse x) ∧ clipQ 1 10 (c.inverse x) ≤ 10 :=
          ⟨le_max_left _ _, max_le (by norm_num) (min_le_right _ _)⟩
        have hb := roundHalfEven_bounds _ hcl.1 hcl.2
        exact ⟨⟨_, rfl⟩, by exact_mod_cast hb.1, by exact_mod_cast hb.2⟩
      · exact ih q (by simpa [finalizeRow] using h)

/-- C9: on a trained forecaster with a window of at least `sequence_length`
rows and a positive horizon, the forecast has exactly `daysAhead` entries and
every predicted metric value is integer-valued and lies in `[1, 10]`. -/
theorem c9_forecast_shape (st : LSTMState) (recent : List Row) (daysAhead : ℕ)
    (ht : st.is_trained = true) (hlen : st.sequence_length ≤ recent.length)
    (hd : 0 < daysAhead) :
    (predictNextDays st recent daysAhead).length = daysAhead ∧
    ∀ row ∈ predictNextDays st recent daysAhead, ∀ v ∈ row,
      (∃ n : ℤ, v = (n : ℚ)) ∧ 1 ≤ v ∧ v ≤ 10 := by
  simp only [predictNextDays, ht, Bool.true_eq_false, if_false]
  constructor
  · simp [predSteps_length]
  · intro row hrow v hv
    rcases List.mem_map.1 hrow with ⟨q, hq, rfl⟩
    exact finalizeRow_mem _ _ _ hv

/-- A concrete trained analyzer state for the C9 and C10 witnesses:
window 2, identity-range scaler columns, identity regressors on three
metrics, the fourth metric without a model. -/
def lstmStateW : LSTMState :=
  ⟨2, true, [⟨0, 1⟩, ⟨0, 1⟩, ⟨0, 1⟩, ⟨0, 1⟩],
   [some ⟨1, 0⟩, some ⟨1, 0⟩, some ⟨1, 0⟩, none]⟩

/-- C9 witness: a concrete trained state, a 2-row window and horizon 3. -/
theorem c9_forecast_shape_witness :
    lstmStateW.is_trained = true ∧
    lstmStateW.sequence_length ≤ ([[1, 2, 3, 4], [2, 3, 4, 5]] : List Row).length ∧
    0 < 3 ∧
    ((predictNextDays lstmStateW [[1, 2, 3, 4], [2, 3, 4, 5]] 3).length = 3 ∧
     ∀ row ∈ predictNextDays lstmStateW [[1, 2, 3, 4], [2, 3, 4, 5]] 3, ∀ v ∈ row,
       (∃ n : ℤ, v = (n : ℚ)) ∧ 1 ≤ v ∧ v ≤ 10) :=
  ⟨rfl, by simp [lstmStateW], by norm_num,
    c9_forecast_shape lstmStateW [[1, 2, 3, 4], [2, 3, 4, 5]] 3 rfl
      (by simp [lstmStateW]) (by norm_num)⟩

/-- Dropping a strict prefix does not change the last element. -/
theorem getLast?_drop_of_lt {α : Type} (l : List α) (k : ℕ) (hk : k < l.length) :
    (l.drop k).getLast? = l.getLast? := by
  induction l generalizing k with
  | nil => simp at hk
  | cons a t ih =>
    cases k with
    | zero => rfl
    | succ j =>
      have hj : j < t.length := by simpa using hk
      rw [List.drop_succ_cons, ih j hj]
      cases t with
      | nil => simp at hj
      | cons b u => exact (List.getLast?_cons_cons).symm

/-- The trailing window keeps the last element (nonempty list, window of at
least one row). -/
theorem tailN_getLast? {α : Type} (n : ℕ) (hn : 1 ≤ n) (l : List α) (hl : l ≠ []) :
    (tailN n l).getLast? = l.getLast? := by
  unfold tailN
  have h0 : 0 < l.length := List.length_pos.mpr hl
  exact getLast?_drop_of_lt l (l.length - n) (by omega)

/-- The forecast loop reads the rolling window only through its last row. -/
theorem predSteps_last_congr (ms : List (Option LinModel)) (w1 w2 : List Row)
    (n : ℕ) (hw : w1.getLastD [] = w2.getLastD []) :
    predSteps ms w1 n = predSteps ms w2 n := by
  induction n generalizing w1 w2 with
  | zero => rfl
  | succ k ih =>
    simp only [predSteps, hw]
    exact congrArg _ (ih _ _ (by rw [List.getLastD_concat, List.getLastD_concat]))

/-- C10: on a trained forecaster, the whole forecast depends only on the last
row of the supplied recent data: two nonempty histories with the same last
row produce identical forecasts for every horizon. -/
theorem c10_forecast_last_row (st : LSTMState) (d1 d2 : List Row)
    (daysAhead : ℕ) (ht : st.is_trained = true) (h1 : d1 ≠ []) (h2 : d2 ≠ [])
    (hlast : d1.getLast? = d2.getLast?) :
    predictNextDays st d1 daysAhead = predictNextDays st d2 daysAhead := by
  simp only [predictNextDays, ht, Bool.true_eq_false, if_false]
  refine congrArg _ (predSteps_last_congr _ _ _ _ ?_)
  rcases Nat.eq_zero_or_pos st.sequence_length with hW | hW
  · simp [hW, tailN, List.drop_length, scaleRows]
  · rw [List.getLastD_eq_getLast?, List.getLastD_eq_getLast?]
    unfold scaleRows
    rw [List.getLast?_map, List.getLast?_map, tailN_getLast? _ hW _ h1,
      tailN_getLast? _ hW _ h2, hlast]

/-- C10 witness: two concrete histories of different lengths and contents
ending in the same row give identical 2-day forecasts. -/
theorem c10_forecast_last_row_witness :
    lstmStateW.is_trained = true ∧
    ([[9, 9, 9, 9], [2, 3, 4, 5]] : List Row) ≠ [] ∧
    ([[1, 1, 1, 1], [1, 2, 3, 4], [2, 3, 4, 5]] : List Row) ≠ [] ∧
    ([[9, 9, 9, 9], [2, 3, 4, 5]] : List Row).getLast? =
      ([[1, 1, 1, 1], [1, 2, 3, 4], [2, 3, 4, 5]] : List Row).getLast? ∧
    predictNextDays lstmStateW [[9, 9, 9, 9], [2, 3, 4, 5]] 2 =
      predictNextDays lstmStateW [[1, 1, 1, 1], [1, 2, 3, 4], [2, 3, 4, 5]] 2 :=
  ⟨rfl, by simp, by simp, rfl,
    c10_forecast_last_row lstmStateW [[9, 9, 9, 9], [2, 3, 4, 5]]
      [[1, 1, 1, 1], [1, 2, 3, 4], [2, 3, 4, 5]] 2 rfl (by simp) (by simp) rfl⟩

end Wellbeing
